import Mathlib

/-!
Verification of `src/provision.py` (DevOps-EC2-Automator).

The script is a linear workflow: load a YAML config, resolve the default
VPC, find-or-create a security group with two ingress rules, launch EC2
instances, report, and (optionally, never invoked by default) clean up.

The embedding below models each Python function as a pure Lean function
over an environment `Ec2Env` describing the provider's responses.  Each
function returns, besides its result, the list of remote API calls it
issued (`List ApiCall`) and, where claims need them, the lines it printed
(`List OutLine`, one constructor per `print` statement of the source).
`sys.exit(1)` sites are modelled by `Except.error` carrying a
`FatalError`; `fatalExitCode` maps every such error to exit status 1,
mirroring `sys.exit(1)`.
-/

namespace Provision

/-- Substring test on `List Char`: does the second list start with the first?
Models the character-by-character comparison underlying Python's `in`. -/
def charsStartWith : List Char → List Char → Bool
  | [], _ => true
  | _ :: _, [] => false
  | a :: as, b :: bs => a == b && charsStartWith as bs

/-- Does `pat` occur as a contiguous substring of the second list?
Models Python's `pat in s` on strings. -/
def charsContain (pat : List Char) : List Char → Bool
  | [] => pat.isEmpty
  | b :: rest => charsStartWith pat (b :: rest) || charsContain pat rest

/-- Python's `pat in s` for strings, used by the source on `str(e)`
(`"DoesNotExist" in str(e)`, `"InvalidKeyPair.NotFound" in str(e)`, ...). -/
def strContains (s pat : String) : Bool :=
  charsContain pat.toList s.toList

/-- A remote EC2 API call as issued by the script (boto3 client methods and
waiters).  `runInstances` records `ImageId`, `MinCount`, `MaxCount`,
`InstanceType`, `KeyName` and `SecurityGroupIds`; the `TagSpecifications`
argument (a timestamped Name tag plus a fixed Project tag) is
time-dependent and not recorded. -/
inductive ApiCall
  | describeVpcs
  | describeSecurityGroups (groupName : String)
  | createSecurityGroup (groupName description vpcId : String)
  | authorizeIngress (groupId protocol : String) (fromPort toPort : Nat) (cidr : String)
  | runInstances (imageId : String) (minCount maxCount : Nat)
      (instanceType keyName : String) (securityGroupIds : List String)
  | waitInstanceRunning (instanceIds : List String)
  | describeInstances (instanceIds : List String)
  | terminateInstances (instanceIds : List String)
  | waitInstanceTerminated (instanceIds : List String)
  | deleteSecurityGroup (groupId : String)
  deriving DecidableEq, Repr

/-- A printed line, one constructor per `print` statement the claims care
about, carrying the interpolated data. -/
inductive OutLine
  | errorLaunch (msg : String)
  | hintKeyPair
  | hintAmi
  | instanceIdLine (id : String)
  | publicIpLine (ip : String)
  | instanceTypeLine (t : String)
  | amiIdLine (a : String)
  | keyPairLine (k : String)
  | securityGroupLine (name groupId : String)
  | separator
  | terminatedOk
  | errorTerminate (msg : String)
  | sgDeletedOk (groupId : String)
  | errorDeleteSg (msg : String)
  | manualDeleteHint
  deriving DecidableEq, Repr

/-- Every `sys.exit(1)` site of the source (plus the one spot where an
uncaught IndexError would escape `create_security_group` if the provider
returned an empty `SecurityGroups` list). -/
inductive FatalError
  | configNotFound
  | configParseError
  | vpcDescribeError
  | noDefaultNetwork
  | sgDescribeError
  | sgCreateOrRuleError
  | sgEmptyLookupCrash
  | launchError
  deriving DecidableEq, Repr

/-- The process exit status each fatal outcome produces: every one is
`sys.exit(1)` (or, for the uncaught-exception case, Python's exit status 1). -/
def fatalExitCode : FatalError → Nat := fun _ => 1

/-- `True`/`False` of a remote call having raised `ClientError`. -/
def exceptFailed {α : Type} : Except String α → Bool
  | Except.error _ => true
  | Except.ok _ => false

/-! ## Configuration loading (`load_config`, lines 7-18) -/

/-- The parsed YAML document: each of the seven keys that
`config.yaml` is documented to need, present or absent.  `load_config`
itself never inspects them. -/
structure ConfigDoc where
  aws_region : Option String
  ami_id : Option String
  instance_type : Option String
  instance_count : Option Nat
  key_pair_name : Option String
  security_group_name : Option String
  security_group_description : Option String
  deriving DecidableEq, Repr

/-- The state of the config file on disk, as `load_config` can observe it:
missing (`FileNotFoundError`), malformed (`yaml.YAMLError`), or parsed. -/
inductive FileState
  | missing
  | malformed
  | parsed (doc : ConfigDoc)
  deriving DecidableEq, Repr

/-- What `load_config` can do: exit with status 1 on a missing or
malformed file, exit with an aggregated ConfigInvalid error naming the
missing fields (the observation the spec describes — the source contains
no such path), or return the parsed document. -/
inductive LoadOutcome
  | exitConfigNotFound
  | exitParseError
  | exitConfigInvalid (missing : List String)
  | returned (doc : ConfigDoc)
  deriving DecidableEq, Repr

/-- `load_config` (source lines 7-18): opens the file, parses it with
`yaml.safe_load`, returns the result; `FileNotFoundError` and
`yaml.YAMLError` each print a message and `sys.exit(1)`.  No field
validation of any kind is performed. -/
def load_config : FileState → LoadOutcome
  | FileState.missing => LoadOutcome.exitConfigNotFound
  | FileState.malformed => LoadOutcome.exitParseError
  | FileState.parsed doc => LoadOutcome.returned doc

/-- Does a `load_config` outcome raise the ConfigInvalid error? -/
def isConfigInvalid : LoadOutcome → Bool
  | LoadOutcome.exitConfigInvalid _ => true
  | _ => false

/-- Modelled from the spec: the names of the required fields absent from a
parsed document (spec section 6 lists the seven required keys).  The source
computes nothing of the kind; this definition exists only to state claim
C2's hypothesis. -/
def specRequiredMissing (doc : ConfigDoc) : List String :=
  (if doc.aws_region.isNone then ["aws_region"] else []) ++
  (if doc.ami_id.isNone then ["ami_id"] else []) ++
  (if doc.instance_type.isNone then ["instance_type"] else []) ++
  (if doc.instance_count.isNone then ["instance_count"] else []) ++
  (if doc.key_pair_name.isNone then ["key_pair_name"] else []) ++
  (if doc.security_group_name.isNone then ["security_group_name"] else []) ++
  (if doc.security_group_description.isNone then ["security_group_description"] else [])

/-- A document with every required field absent. -/
def emptyDoc : ConfigDoc :=
  { aws_region := none, ami_id := none, instance_type := none,
    instance_count := none, key_pair_name := none,
    security_group_name := none, security_group_description := none }

/-- A validated configuration, as the provisioning steps consume it
(`config['aws_region']`, `config['ami_id']`, ... all present). -/
structure Config where
  aws_region : String
  ami_id : String
  instance_type : String
  instance_count : Nat
  key_pair_name : String
  security_group_name : String
  security_group_description : String
  deriving DecidableEq, Repr

/-! ## The provider environment -/

/-- One EC2 instance as returned by `describe_instances`: its identifier and
its public address, which the provider may not have assigned
(`'PublicIpAddress' in instance` is then false). -/
structure InstanceInfo where
  instanceId : String
  publicIp : Option String
  deriving DecidableEq, Repr

/-- The provider's responses for one run, fixed up front: each field is the
outcome of the corresponding remote call, `Except.error msg` standing for a
raised `ClientError` whose `str(e)` is `msg`. -/
structure Ec2Env where
  /-- `describe_vpcs(Filters=[isDefault=true])`: the `VpcId`s of the
  default-flagged VPCs, in the order returned. -/
  vpcsResponse : Except String (List String)
  /-- `describe_security_groups(GroupNames=[sg_name])`: the `GroupId`s of
  the matching groups, or a `ClientError`. -/
  sgLookup : Except String (List String)
  /-- `create_security_group(...)`: the new `GroupId`, or a `ClientError`. -/
  sgCreate : Except String String
  /-- First `authorize_security_group_ingress` call (TCP 22). -/
  sgAuthorize22 : Except String Unit
  /-- Second `authorize_security_group_ingress` call (TCP 80). -/
  sgAuthorize80 : Except String Unit
  /-- `run_instances(...)`: the `InstanceId`s of the launched instances. -/
  runResult : Except String (List String)
  /-- `describe_instances(...)`: `Reservations`, each a list of instances. -/
  describeReservations : List (List InstanceInfo)
  /-- `terminate_instances(...)` in the cleanup path. -/
  terminateCall : Except String Unit
  /-- The `instance_terminated` waiter in the cleanup path. -/
  terminateWait : Except String Unit
  /-- `delete_security_group(...)` in the cleanup path. -/
  deleteSgResult : Except String Unit
  deriving Repr

/-! ## Security group provisioning (`create_security_group`, lines 20-76) -/

/-- `create_security_group` (source lines 20-76): look the group up by
name; on success return `SecurityGroups[0]['GroupId']` unchanged.  On a
`ClientError` whose text contains `"DoesNotExist"`, create the group in
the given VPC and attach the SSH (TCP 22) and HTTP (TCP 80) ingress rules,
both from `0.0.0.0/0`; any `ClientError` during creation or rule
attachment is `sys.exit(1)`.  A lookup `ClientError` of any other kind is
also `sys.exit(1)`.  Returns the group id together with the calls made. -/
def create_security_group (env : Ec2Env) (vpc_id sg_name sg_description : String) :
    Except FatalError String × List ApiCall :=
  match env.sgLookup with
  | Except.ok groups =>
    match groups.head? with
    | some sg_id => (Except.ok sg_id, [ApiCall.describeSecurityGroups sg_name])
    | none => (Except.error FatalError.sgEmptyLookupCrash,
        [ApiCall.describeSecurityGroups sg_name])
  | Except.error e =>
    if strContains e "DoesNotExist" then
      match env.sgCreate with
      | Except.error _ => (Except.error FatalError.sgCreateOrRuleError,
          [ApiCall.describeSecurityGroups sg_name,
           ApiCall.createSecurityGroup sg_name sg_description vpc_id])
      | Except.ok sg_id =>
        match env.sgAuthorize22 with
        | Except.error _ => (Except.error FatalError.sgCreateOrRuleError,
            [ApiCall.describeSecurityGroups sg_name,
             ApiCall.createSecurityGroup sg_name sg_description vpc_id,
             ApiCall.authorizeIngress sg_id "tcp" 22 22 "0.0.0.0/0"])
        | Except.ok _ =>
          match env.sgAuthorize80 with
          | Except.error _ => (Except.error FatalError.sgCreateOrRuleError,
              [ApiCall.describeSecurityGroups sg_name,
               ApiCall.createSecurityGroup sg_name sg_description vpc_id,
               ApiCall.authorizeIngress sg_id "tcp" 22 22 "0.0.0.0/0",
               ApiCall.authorizeIngress sg_id "tcp" 80 80 "0.0.0.0/0"])
          | Except.ok _ => (Except.ok sg_id,
              [ApiCall.describeSecurityGroups sg_name,
               ApiCall.createSecurityGroup sg_name sg_description vpc_id,
               ApiCall.authorizeIngress sg_id "tcp" 22 22 "0.0.0.0/0",
               ApiCall.authorizeIngress sg_id "tcp" 80 80 "0.0.0.0/0"])
    else
      (Except.error FatalError.sgDescribeError, [ApiCall.describeSecurityGroups sg_name])

/-! ## Instance provisioning (`provision_ec2_instance`, lines 78-144) -/

/-- The public addresses gathered from `describe_instances` (source lines
116-121): every instance of every reservation that has a
`PublicIpAddress`, in order. -/
def collectPublicIps (reservations : List (List InstanceInfo)) : List String :=
  reservations.flatMap (fun insts => insts.filterMap (fun inst => inst.publicIp))

/-- One iteration of the summary loop (source lines 124-132) for the
instance at position `i`: the address line is printed only under the
`i < len(public_ips)` guard. -/
def summaryBlock (config : Config) (sg_id : String) (public_ips : List String)
    (i : Nat) (instance_id : String) : List OutLine :=
  [OutLine.instanceIdLine instance_id] ++
  (if h : i < public_ips.length then [OutLine.publicIpLine (public_ips.get ⟨i, h⟩)] else []) ++
  [OutLine.instanceTypeLine config.instance_type,
   OutLine.amiIdLine config.ami_id,
   OutLine.keyPairLine config.key_pair_name,
   OutLine.securityGroupLine config.security_group_name sg_id,
   OutLine.separator]

/-- The summary loop from position `i` on: `enumerate(instance_ids)`
starting at index `i`. -/
def summaryFrom (config : Config) (sg_id : String) (public_ips : List String) :
    Nat → List String → List OutLine
  | _, [] => []
  | i, instance_id :: rest =>
    summaryBlock config sg_id public_ips i instance_id ++
      summaryFrom config sg_id public_ips (i + 1) rest

/-- The whole provisioning summary (source lines 123-132). -/
def summaryLines (config : Config) (sg_id : String)
    (instance_ids public_ips : List String) : List OutLine :=
  summaryFrom config sg_id public_ips 0 instance_ids

/-- The lines printed when `run_instances` raises (source lines 136-143):
the error itself, then a key-pair hint if `str(e)` contains
`"InvalidKeyPair.NotFound"`, then an AMI hint if it contains
`"InvalidAMIID.NotFound"` or `"InvalidAMIID.Malformed"`. -/
def launchErrorLines (e : String) : List OutLine :=
  OutLine.errorLaunch e ::
    ((if strContains e "InvalidKeyPair.NotFound" then [OutLine.hintKeyPair] else []) ++
     (if strContains e "InvalidAMIID.NotFound" || strContains e "InvalidAMIID.Malformed"
       then [OutLine.hintAmi] else []))

/-- `provision_ec2_instance` (source lines 78-144): one `run_instances`
call with `MinCount=1` and `MaxCount=config['instance_count']`; on success
wait for the running state, re-query the instances for public addresses,
print the summary, and return `(instance_ids, public_ips)`.  On a
`ClientError` from `run_instances`, print the error (plus up to two hint
lines) and `sys.exit(1)`. -/
def provision_ec2_instance (env : Ec2Env) (config : Config) (sg_id : String) :
    Except FatalError (List String × List String) × List ApiCall × List OutLine :=
  let runCall := ApiCall.runInstances config.ami_id 1 config.instance_count
    config.instance_type config.key_pair_name [sg_id]
  match env.runResult with
  | Except.error e =>
    (Except.error FatalError.launchError, [runCall], launchErrorLines e)
  | Except.ok instance_ids =>
    let public_ips := collectPublicIps env.describeReservations
    (Except.ok (instance_ids, public_ips),
     [runCall, ApiCall.waitInstanceRunning instance_ids,
      ApiCall.describeInstances instance_ids],
     summaryLines config sg_id instance_ids public_ips)

/-! ## Cleanup (`cleanup_resources`, lines 146-170) -/

/-- `cleanup_resources` (source lines 146-170): if `instance_ids` is
non-empty, terminate them and wait; a `ClientError` from either is caught
and printed.  Then, if `sg_id` is non-empty, sleep and delete the group; a
`ClientError` is caught and printed with a manual-cleanup hint.  The third
component is the process exit status the function itself triggers: there
is no `sys.exit` anywhere in it, so it is always `none`. -/
def cleanup_resources (env : Ec2Env) (instance_ids : List String) (sg_id : String) :
    List ApiCall × List OutLine × Option Nat :=
  let termPart : List ApiCall × List OutLine :=
    if instance_ids.isEmpty then ([], [])
    else
      match env.terminateCall with
      | Except.error e => ([ApiCall.terminateInstances instance_ids],
          [OutLine.errorTerminate e])
      | Except.ok _ =>
        match env.terminateWait with
        | Except.error e => ([ApiCall.terminateInstances instance_ids,
            ApiCall.waitInstanceTerminated instance_ids], [OutLine.errorTerminate e])
        | Except.ok _ => ([ApiCall.terminateInstances instance_ids,
            ApiCall.waitInstanceTerminated instance_ids], [OutLine.terminatedOk])
  let sgPart : List ApiCall × List OutLine :=
    if sg_id.isEmpty then ([], [])
    else
      match env.deleteSgResult with
      | Except.error e => ([ApiCall.deleteSecurityGroup sg_id],
          [OutLine.errorDeleteSg e, OutLine.manualDeleteHint])
      | Except.ok _ => ([ApiCall.deleteSecurityGroup sg_id], [OutLine.sgDeletedOk sg_id])
  (termPart.1 ++ sgPart.1, termPart.2 ++ sgPart.2, none)

/-! ## Main workflow (`__main__`, lines 173-216) -/

/-- The default-VPC choice made at source line 189 after the emptiness
check of line 186: `response['Vpcs'][0]['VpcId']`, i.e. the head of the
returned list (`none` exactly when the list is empty). -/
def resolveDefaultVpcId (vpcIds : List String) : Option String :=
  vpcIds.head?

/-- The `__main__` block from the `describe_vpcs` call on (source lines
184-216), taking an already-loaded configuration: resolve the default VPC
(exit on a `ClientError` or on an empty list), create-or-get the security
group, provision the instances.  `cleanup_resources` is never called (the
call at line 216 is commented out).  Returns the outcome together with
every API call made. -/
def mainWorkflow (env : Ec2Env) (config : Config) :
    Except FatalError (List String × List String × String) × List ApiCall :=
  match env.vpcsResponse with
  | Except.error _ => (Except.error FatalError.vpcDescribeError, [ApiCall.describeVpcs])
  | Except.ok vpcIds =>
    match resolveDefaultVpcId vpcIds with
    | none => (Except.error FatalError.noDefaultNetwork, [ApiCall.describeVpcs])
    | some default_vpc_id =>
      let sg := create_security_group env default_vpc_id
        config.security_group_name config.security_group_description
      match sg.1 with
      | Except.error e => (Except.error e, ApiCall.describeVpcs :: sg.2)
      | Except.ok security_group_id =>
        let prov := provision_ec2_instance env config security_group_id
        match prov.1 with
        | Except.error e => (Except.error e, (ApiCall.describeVpcs :: sg.2) ++ prov.2.1)
        | Except.ok (ids, ips) =>
          (Except.ok (ids, ips, security_group_id),
           (ApiCall.describeVpcs :: sg.2) ++ prov.2.1)

/-! ## Call and line classifiers -/

/-- Is the call a `create_security_group` call? -/
def isCreateSgCall : ApiCall → Bool
  | ApiCall.createSecurityGroup _ _ _ => true
  | _ => false

/-- Is the call an `authorize_security_group_ingress` call? -/
def isAuthorizeCall : ApiCall → Bool
  | ApiCall.authorizeIngress _ _ _ _ _ => true
  | _ => false

/-- Is the call a `run_instances` call? -/
def isRunCall : ApiCall → Bool
  | ApiCall.runInstances _ _ _ _ _ _ => true
  | _ => false

/-- Is the call a `delete_security_group` call? -/
def isDeleteSgCall : ApiCall → Bool
  | ApiCall.deleteSecurityGroup _ => true
  | _ => false

/-- Is the call a `describe_security_groups` call? -/
def isDescribeSgCall : ApiCall → Bool
  | ApiCall.describeSecurityGroups _ => true
  | _ => false

/-- Number of calls in a trace satisfying the classifier. -/
def countCalls (p : ApiCall → Bool) (trace : List ApiCall) : Nat :=
  (trace.filter p).length

/-- Is the line one of the two operator hints of the launch-error path? -/
def isHintLine : OutLine → Bool
  | OutLine.hintKeyPair => true
  | OutLine.hintAmi => true
  | _ => false

/-- Is the line a `Public IP:` line of the summary? -/
def isPublicIpLine : OutLine → Bool
  | OutLine.publicIpLine _ => true
  | _ => false

/-- Number of printed lines satisfying the classifier. -/
def countLines (p : OutLine → Bool) (lines : List OutLine) : Nat :=
  (lines.filter p).length

/-! ## Concrete sample data (for witnesses and counterexamples) -/

/-- The end-to-end configuration of spec section 8, with
`instance_count := 2` so that multi-instance behaviour is visible. -/
def cfgBase : Config :=
  { aws_region := "us-east-1", ami_id := "ami-123", instance_type := "t2.micro",
    instance_count := 2, key_pair_name := "kp1",
    security_group_name := "sg-test", security_group_description := "test" }

/-- A fully successful provider: one default VPC, the security group
already exists, two instances launch, and only the first one is assigned a
public address. -/
def envBase : Ec2Env :=
  { vpcsResponse := Except.ok ["vpc-1"],
    sgLookup := Except.ok ["sg-0123"],
    sgCreate := Except.ok "sg-new",
    sgAuthorize22 := Except.ok (),
    sgAuthorize80 := Except.ok (),
    runResult := Except.ok ["i-1", "i-2"],
    describeReservations := [[{ instanceId := "i-1", publicIp := some "1.2.3.4" },
                              { instanceId := "i-2", publicIp := none }]],
    terminateCall := Except.ok (),
    terminateWait := Except.ok (),
    deleteSgResult := Except.ok () }

/-- A lookup error whose text contains the `"DoesNotExist"` marker the
source tests for. -/
def msgNotFound : String :=
  "An error occurred: the specified security group DoesNotExist in this VPC"

/-- A provider where the group lookup signals not-found and creation
succeeds. -/
def envNotFound : Ec2Env :=
  { envBase with sgLookup := Except.error msgNotFound }

/-- A `run_instances` error text containing the key-pair marker the source
tests for. -/
def msgBadKeyPair : String :=
  "An error occurred (InvalidKeyPair.NotFound) when calling the RunInstances operation"

/-- A provider run where only one of the two requested instances launches
(legal for the provider, since the request's `MinCount` is 1). -/
def envOneLaunched : Ec2Env :=
  { envBase with
    runResult := Except.ok ["i-1"]
    describeReservations := [[{ instanceId := "i-1", publicIp := some "1.2.3.4" }]] }

/-! ## Helper lemmas -/

/-- Printed-line counts add up over concatenation. -/
theorem countLines_append (p : OutLine → Bool) (l1 l2 : List OutLine) :
    countLines p (l1 ++ l2) = countLines p l1 + countLines p l2 := by
  simp [countLines, List.filter_append]

/-- One summary block prints a `Public IP:` line exactly when the
instance's position is within the address list. -/
theorem summaryBlock_publicIp_count (config : Config) (sg_id : String)
    (public_ips : List String) (i : Nat) (instance_id : String) :
    countLines isPublicIpLine (summaryBlock config sg_id public_ips i instance_id) =
      if i < public_ips.length then 1 else 0 := by
  unfold summaryBlock countLines
  split <;> simp [isPublicIpLine, List.filter]

/-- The summary loop starting at position `i` prints one `Public IP:` line
per instance whose position lands inside the address list. -/
theorem summaryFrom_publicIp_count (config : Config) (sg_id : String)
    (public_ips ids : List String) (i : Nat) :
    countLines isPublicIpLine (summaryFrom config sg_id public_ips i ids) =
      min ids.length (public_ips.length - i) := by
  induction ids generalizing i with
  | nil => simp [summaryFrom, countLines]
  | cons instance_id rest ih =>
    have hstep : summaryFrom config sg_id public_ips i (instance_id :: rest) =
        summaryBlock config sg_id public_ips i instance_id ++
          summaryFrom config sg_id public_ips (i + 1) rest := rfl
    rw [hstep, countLines_append, summaryBlock_publicIp_count, ih]
    simp only [List.length_cons]
    rcases Nat.lt_or_ge i public_ips.length with h | h
    · rw [if_pos h]
      omega
    · rw [if_neg (Nat.not_lt.mpr h)]
      omega

/-! ## Claim C1 -/

/-- C1 counterexample: with `instance_count = 2` the single `run_instances`
request carries `MinCount = 1 < 2`, and a successful provider response
launching only one instance makes the provisioner return a one-element
identifier list — refuting both "never a request whose minimum is fewer
than N" and "on success returns a list of exactly N instance
identifiers". -/
theorem C1_counterexample :
    cfgBase.instance_count = 2 ∧
    (provision_ec2_instance envOneLaunched cfgBase "sg-1").2.1 =
      [ApiCall.runInstances "ami-123" 1 2 "t2.micro" "kp1" ["sg-1"],
       ApiCall.waitInstanceRunning ["i-1"],
       ApiCall.describeInstances ["i-1"]] ∧
    (provision_ec2_instance envOneLaunched cfgBase "sg-1").1 =
      Except.ok (["i-1"], ["1.2.3.4"]) := by
  refine ⟨rfl, rfl, rfl⟩

/-- C1 (amended): the instance provisioner issues exactly one batch
`run_instances` call, with `MaxCount = instance_count` but `MinCount = 1`
(so the provider may legitimately launch fewer than `instance_count`
instances), and on success returns the identifiers of exactly the
instances the provider reports launched, however many that is. -/
theorem C1_single_batch_call (env : Ec2Env) (config : Config) (sg_id : String)
    (ids : List String) (h : env.runResult = Except.ok ids) :
    countCalls isRunCall (provision_ec2_instance env config sg_id).2.1 = 1 ∧
    (provision_ec2_instance env config sg_id).2.1.head? =
      some (ApiCall.runInstances config.ami_id 1 config.instance_count
        config.instance_type config.key_pair_name [sg_id]) ∧
    (provision_ec2_instance env config sg_id).1 =
      Except.ok (ids, collectPublicIps env.describeReservations) := by
  unfold provision_ec2_instance
  rw [h]
  refine ⟨?_, rfl, rfl⟩
  simp [countCalls, isRunCall, List.filter]

/-- Witness for C1's amended theorem at a concrete environment. -/
theorem C1_single_batch_call_witness :
    countCalls isRunCall (provision_ec2_instance envBase cfgBase "sg-1").2.1 = 1 ∧
    (provision_ec2_instance envBase cfgBase "sg-1").2.1.head? =
      some (ApiCall.runInstances cfgBase.ami_id 1 cfgBase.instance_count
        cfgBase.instance_type cfgBase.key_pair_name ["sg-1"]) ∧
    (provision_ec2_instance envBase cfgBase "sg-1").1 =
      Except.ok (["i-1", "i-2"], collectPublicIps envBase.describeReservations) :=
  C1_single_batch_call envBase cfgBase "sg-1" ["i-1", "i-2"] rfl

/-! ## Claim C2 -/

/-- C2 counterexample: a parsed document from which all seven required
fields are absent is returned unchanged — `load_config` raises no
ConfigInvalid error at all, refuting the "if at least one required field
is absent" direction of the claim. -/
theorem C2_counterexample :
    specRequiredMissing emptyDoc =
      ["aws_region", "ami_id", "instance_type", "instance_count",
       "key_pair_name", "security_group_name", "security_group_description"] ∧
    load_config (FileState.parsed emptyDoc) = LoadOutcome.returned emptyDoc ∧
    isConfigInvalid (load_config (FileState.parsed emptyDoc)) = false := by
  refine ⟨rfl, rfl, rfl⟩

/-- C2 (amended): the configuration loader performs no required-field
validation and never raises a ConfigInvalid error; every successfully
parsed document is returned unchanged, whatever fields it is missing
(absence surfaces only later, as missing-key errors downstream). -/
theorem C2_loader_no_validation (fs : FileState) (doc : ConfigDoc) :
    isConfigInvalid (load_config fs) = false ∧
    load_config (FileState.parsed doc) = LoadOutcome.returned doc := by
  refine ⟨?_, rfl⟩
  cases fs <;> rfl

/-! ## Claim C3 -/

/-- C3: when the lookup-by-name finds the security group, the provisioner
returns the existing group's identifier unchanged and makes zero
authorize-ingress and zero create calls. -/
theorem C3_existing_group_reused (env : Ec2Env) (vpc_id sg_name sg_description sg_id : String)
    (rest : List String) (h : env.sgLookup = Except.ok (sg_id :: rest)) :
    (create_security_group env vpc_id sg_name sg_description).1 = Except.ok sg_id ∧
    countCalls isAuthorizeCall (create_security_group env vpc_id sg_name sg_description).2 = 0 ∧
    countCalls isCreateSgCall (create_security_group env vpc_id sg_name sg_description).2 = 0 := by
  unfold create_security_group
  rw [h]
  refine ⟨rfl, ?_, ?_⟩ <;> simp [countCalls, isAuthorizeCall, isCreateSgCall, List.filter]

/-- Witness for C3 at a concrete environment. -/
theorem C3_existing_group_reused_witness :
    (create_security_group envBase "vpc-1" "sg-test" "test").1 = Except.ok "sg-0123" ∧
    countCalls isAuthorizeCall (create_security_group envBase "vpc-1" "sg-test" "test").2 = 0 ∧
    countCalls isCreateSgCall (create_security_group envBase "vpc-1" "sg-test" "test").2 = 0 :=
  C3_existing_group_reused envBase "vpc-1" "sg-test" "test" "sg-0123" [] rfl

/-! ## Claim C4 -/

/-- C4: when the lookup signals not-found (`"DoesNotExist"` in the error
text) and creation and rule attachment succeed, the provisioner makes
exactly one create call scoped to the resolved VPC followed by exactly two
authorize-ingress calls — TCP 22 and TCP 80, both from `0.0.0.0/0` — and
returns the newly created group's identifier. -/
theorem C4_created_group_two_rules (env : Ec2Env)
    (vpc_id sg_name sg_description e sg_id : String)
    (hLookup : env.sgLookup = Except.error e)
    (hNotFound : strContains e "DoesNotExist" = true)
    (hCreate : env.sgCreate = Except.ok sg_id)
    (h22 : env.sgAuthorize22 = Except.ok ())
    (h80 : env.sgAuthorize80 = Except.ok ()) :
    (create_security_group env vpc_id sg_name sg_description).1 = Except.ok sg_id ∧
    (create_security_group env vpc_id sg_name sg_description).2 =
      [ApiCall.describeSecurityGroups sg_name,
       ApiCall.createSecurityGroup sg_name sg_description vpc_id,
       ApiCall.authorizeIngress sg_id "tcp" 22 22 "0.0.0.0/0",
       ApiCall.authorizeIngress sg_id "tcp" 80 80 "0.0.0.0/0"] ∧
    countCalls isCreateSgCall (create_security_group env vpc_id sg_name sg_description).2 = 1 ∧
    countCalls isAuthorizeCall (create_security_group env vpc_id sg_name sg_description).2 = 2 := by
  simp [create_security_group, hLookup, hNotFound, hCreate, h22, h80,
    countCalls, isCreateSgCall, isAuthorizeCall, List.filter]

/-- Witness for C4 at a concrete environment. -/
theorem C4_created_group_two_rules_witness :
    (create_security_group envNotFound "vpc-1" "sg-test" "test").1 = Except.ok "sg-new" ∧
    (create_security_group envNotFound "vpc-1" "sg-test" "test").2 =
      [ApiCall.describeSecurityGroups "sg-test",
       ApiCall.createSecurityGroup "sg-test" "test" "vpc-1",
       ApiCall.authorizeIngress "sg-new" "tcp" 22 22 "0.0.0.0/0",
       ApiCall.authorizeIngress "sg-new" "tcp" 80 80 "0.0.0.0/0"] ∧
    countCalls isCreateSgCall (create_security_group envNotFound "vpc-1" "sg-test" "test").2 = 1 ∧
    countCalls isAuthorizeCall (create_security_group envNotFound "vpc-1" "sg-test" "test").2 = 2 :=
  C4_created_group_two_rules envNotFound "vpc-1" "sg-test" "test" msgNotFound "sg-new"
    rfl (by decide) rfl rfl rfl

/-! ## Claim C5 -/

/-- C5: when the provider reports zero default-flagged VPCs, the main
workflow fails with the no-default-network fatal error (exit status 1)
after the single `describe_vpcs` call, before any security-group lookup or
creation, any ingress authorization, and any instance launch. -/
theorem C5_no_default_vpc_short_circuit (env : Ec2Env) (config : Config)
    (h : env.vpcsResponse = Except.ok []) :
    (mainWorkflow env config).1 = Except.error FatalError.noDefaultNetwork ∧
    fatalExitCode FatalError.noDefaultNetwork = 1 ∧
    (mainWorkflow env config).2 = [ApiCall.describeVpcs] ∧
    countCalls isDescribeSgCall (mainWorkflow env config).2 = 0 ∧
    countCalls isCreateSgCall (mainWorkflow env config).2 = 0 ∧
    countCalls isAuthorizeCall (mainWorkflow env config).2 = 0 ∧
    countCalls isRunCall (mainWorkflow env config).2 = 0 := by
  simp [mainWorkflow, h, resolveDefaultVpcId, fatalExitCode, countCalls,
    isDescribeSgCall, isCreateSgCall, isAuthorizeCall, isRunCall, List.filter]

/-- Witness for C5 at a concrete environment. -/
theorem C5_no_default_vpc_short_circuit_witness :
    (mainWorkflow { envBase with vpcsResponse := Except.ok [] } cfgBase).1 =
      Except.error FatalError.noDefaultNetwork ∧
    fatalExitCode FatalError.noDefaultNetwork = 1 ∧
    (mainWorkflow { envBase with vpcsResponse := Except.ok [] } cfgBase).2 =
      [ApiCall.describeVpcs] := by
  have h := C5_no_default_vpc_short_circuit { envBase with vpcsResponse := Except.ok [] }
    cfgBase rfl
  exact ⟨h.1, h.2.1, h.2.2.1⟩

/-! ## Claim C6 -/

/-- C6: when the launch returns `N` instance identifiers and only `M < N`
of them obtain a public address, the provisioner reports the full
`N`-element identifier list and the `M`-element address list, the summary
prints exactly `M` address lines (none for the blocks at positions `M`
and beyond), and every address access in the summary is guarded by the
`i < len(public_ips)` bound, so it cannot index past the end. -/
theorem C6_partial_address_report (env : Ec2Env) (config : Config) (sg_id : String)
    (ids : List String) (N M : Nat)
    (hrun : env.runResult = Except.ok ids)
    (hN : ids.length = N)
    (hM : (collectPublicIps env.describeReservations).length = M)
    (hMN : M < N) :
    (provision_ec2_instance env config sg_id).1 =
      Except.ok (ids, collectPublicIps env.describeReservations) ∧
    ids.length = N ∧
    (collectPublicIps env.describeReservations).length = M ∧
    countLines isPublicIpLine (provision_ec2_instance env config sg_id).2.2 = M ∧
    (∀ i instance_id, M ≤ i →
      countLines isPublicIpLine
        (summaryBlock config sg_id (collectPublicIps env.describeReservations)
          i instance_id) = 0) := by
  refine ⟨?_, hN, hM, ?_, ?_⟩
  · simp [provision_ec2_instance, hrun]
  · have hlines : (provision_ec2_instance env config sg_id).2.2 =
        summaryLines config sg_id ids (collectPublicIps env.describeReservations) := by
      simp [provision_ec2_instance, hrun]
    rw [hlines]
    simp only [summaryLines]
    rw [summaryFrom_publicIp_count]
    omega
  · intro i instance_id hMi
    rw [summaryBlock_publicIp_count, if_neg (by omega)]

/-- Witness for C6 at a concrete environment: two instances, one address. -/
theorem C6_partial_address_report_witness :
    (provision_ec2_instance envBase cfgBase "sg-1").1 =
      Except.ok (["i-1", "i-2"], collectPublicIps envBase.describeReservations) ∧
    countLines isPublicIpLine (provision_ec2_instance envBase cfgBase "sg-1").2.2 = 1 ∧
    countLines isPublicIpLine
      (summaryBlock cfgBase "sg-1" (collectPublicIps envBase.describeReservations)
        1 "i-2") = 0 := by
  have h := C6_partial_address_report envBase cfgBase "sg-1" ["i-1", "i-2"] 2 1
    rfl rfl rfl (by decide)
  exact ⟨h.1, h.2.2.2.1, h.2.2.2.2 1 "i-2" (by decide)⟩

/-! ## Claim C7 -/

/-- C7: in the reclaimer, a failed termination is reported but non-fatal —
the security-group deletion is still attempted afterwards (exactly one
delete call, last in the trace), and the reclaimer never sets a process
exit status, whatever the delete call itself does. -/
theorem C7_cleanup_best_effort (env : Ec2Env) (instance_ids : List String) (sg_id : String)
    (hids : instance_ids.isEmpty = false)
    (hsg : sg_id.isEmpty = false)
    (hfail : exceptFailed env.terminateCall = true ∨ exceptFailed env.terminateWait = true) :
    (cleanup_resources env instance_ids sg_id).2.2 = none ∧
    countCalls isDeleteSgCall (cleanup_resources env instance_ids sg_id).1 = 1 ∧
    (cleanup_resources env instance_ids sg_id).1.getLast? =
      some (ApiCall.deleteSecurityGroup sg_id) := by
  rcases htc : env.terminateCall with m | u
  · rcases hdel : env.deleteSgResult with m2 | u2 <;>
      simp [cleanup_resources, hids, hsg, htc, hdel, countCalls, isDeleteSgCall, List.filter]
  · rcases htw : env.terminateWait with m | u2
    · rcases hdel : env.deleteSgResult with m2 | u3 <;>
        simp [cleanup_resources, hids, hsg, htc, htw, hdel, countCalls, isDeleteSgCall,
          List.filter]
    · exfalso
      rcases hfail with h1 | h1
      · rw [htc] at h1
        simp [exceptFailed] at h1
      · rw [htw] at h1
        simp [exceptFailed] at h1

/-- Witness for C7 at a concrete environment where termination fails. -/
theorem C7_cleanup_best_effort_witness :
    (cleanup_resources { envBase with terminateCall := Except.error "boom" }
      ["i-1"] "sg-9").2.2 = none ∧
    countCalls isDeleteSgCall
      (cleanup_resources { envBase with terminateCall := Except.error "boom" }
        ["i-1"] "sg-9").1 = 1 ∧
    (cleanup_resources { envBase with terminateCall := Except.error "boom" }
      ["i-1"] "sg-9").1.getLast? = some (ApiCall.deleteSecurityGroup "sg-9") :=
  C7_cleanup_best_effort { envBase with terminateCall := Except.error "boom" }
    ["i-1"] "sg-9" rfl rfl (Or.inl rfl)

/-! ## Claim C8 -/

/-- C8: every `run_instances` failure is fatal with exit status 1; in the
recognized invalid-key-pair sub-case (and not the AMI one) exactly one
extra hint line is printed, and likewise in the invalid-or-malformed-AMI
sub-case (and not the key-pair one); the outcome is the same fatal error
either way. -/
theorem C8_launch_failure_fatal (env : Ec2Env) (config : Config) (sg_id e : String)
    (h : env.runResult = Except.error e) :
    (provision_ec2_instance env config sg_id).1 = Except.error FatalError.launchError ∧
    fatalExitCode FatalError.launchError = 1 ∧
    (strContains e "InvalidKeyPair.NotFound" = true →
      strContains e "InvalidAMIID.NotFound" = false →
      strContains e "InvalidAMIID.Malformed" = false →
      countLines isHintLine (provision_ec2_instance env config sg_id).2.2 = 1) ∧
    (strContains e "InvalidKeyPair.NotFound" = false →
      (strContains e "InvalidAMIID.NotFound" = true ∨
        strContains e "InvalidAMIID.Malformed" = true) →
      countLines isHintLine (provision_ec2_instance env config sg_id).2.2 = 1) := by
  refine ⟨?_, rfl, ?_, ?_⟩
  · simp [provision_ec2_instance, h]
  · intro h1 h2 h3
    simp [provision_ec2_instance, h, launchErrorLines, h1, h2, h3, countLines,
      isHintLine, List.filter]
  · intro h1 h2
    rcases h2 with h2 | h2 <;>
      simp [provision_ec2_instance, h, launchErrorLines, h1, h2, countLines,
        isHintLine, List.filter]

/-- Witness for C8 at a concrete invalid-key-pair launch failure. -/
theorem C8_launch_failure_fatal_witness :
    (provision_ec2_instance { envBase with runResult := Except.error msgBadKeyPair }
      cfgBase "sg-1").1 = Except.error FatalError.launchError ∧
    fatalExitCode FatalError.launchError = 1 ∧
    countLines isHintLine
      (provision_ec2_instance { envBase with runResult := Except.error msgBadKeyPair }
        cfgBase "sg-1").2.2 = 1 := by
  have h := C8_launch_failure_fatal { envBase with runResult := Except.error msgBadKeyPair }
    cfgBase "sg-1" msgBadKeyPair rfl
  exact ⟨h.1, h.2.1, h.2.2.1 (by decide) (by decide) (by decide)⟩

/-! ## Claim C9 -/

/-- C9: if, after the security group has been created, attaching either
ingress rule fails, the workflow exits with status 1, no
delete-security-group call is ever made (the half-created group is left
behind), and no instance launch is attempted. -/
theorem C9_no_rollback_on_rule_failure (env : Ec2Env) (config : Config)
    (vpc_id e sg_id : String) (rest : List String)
    (hvpc : env.vpcsResponse = Except.ok (vpc_id :: rest))
    (hLookup : env.sgLookup = Except.error e)
    (hNotFound : strContains e "DoesNotExist" = true)
    (hCreate : env.sgCreate = Except.ok sg_id)
    (hAuth : exceptFailed env.sgAuthorize22 = true ∨
      (env.sgAuthorize22 = Except.ok () ∧ exceptFailed env.sgAuthorize80 = true)) :
    (mainWorkflow env config).1 = Except.error FatalError.sgCreateOrRuleError ∧
    fatalExitCode FatalError.sgCreateOrRuleError = 1 ∧
    countCalls isCreateSgCall (mainWorkflow env config).2 = 1 ∧
    countCalls isDeleteSgCall (mainWorkflow env config).2 = 0 ∧
    countCalls isRunCall (mainWorkflow env config).2 = 0 := by
  rcases hAuth with h1 | ⟨h22, h80⟩
  · rcases ha : env.sgAuthorize22 with m | u
    · simp [mainWorkflow, hvpc, resolveDefaultVpcId, create_security_group, hLookup,
        hNotFound, hCreate, ha, fatalExitCode, countCalls, isCreateSgCall, isDeleteSgCall,
        isRunCall, List.filter]
    · rw [ha] at h1
      simp [exceptFailed] at h1
  · rcases hb : env.sgAuthorize80 with m | u
    · simp [mainWorkflow, hvpc, resolveDefaultVpcId, create_security_group, hLookup,
        hNotFound, hCreate, h22, hb, fatalExitCode, countCalls, isCreateSgCall, isDeleteSgCall,
        isRunCall, List.filter]
    · rw [hb] at h80
      simp [exceptFailed] at h80

/-- Witness for C9 at a concrete environment where the first rule
attachment fails. -/
theorem C9_no_rollback_on_rule_failure_witness :
    (mainWorkflow { envNotFound with sgAuthorize22 := Except.error "UnauthorizedOperation" }
      cfgBase).1 = Except.error FatalError.sgCreateOrRuleError ∧
    fatalExitCode FatalError.sgCreateOrRuleError = 1 ∧
    countCalls isCreateSgCall
      (mainWorkflow { envNotFound with sgAuthorize22 := Except.error "UnauthorizedOperation" }
        cfgBase).2 = 1 ∧
    countCalls isDeleteSgCall
      (mainWorkflow { envNotFound with sgAuthorize22 := Except.error "UnauthorizedOperation" }
        cfgBase).2 = 0 ∧
    countCalls isRunCall
      (mainWorkflow { envNotFound with sgAuthorize22 := Except.error "UnauthorizedOperation" }
        cfgBase).2 = 0 :=
  C9_no_rollback_on_rule_failure
    { envNotFound with sgAuthorize22 := Except.error "UnauthorizedOperation" }
    cfgBase "vpc-1" msgNotFound "sg-new" [] rfl rfl (by decide) rfl (Or.inl rfl)

/-! ## Claim C10 -/

/-- C10: whenever the provider returns a non-empty list of default-flagged
VPCs, the resolver returns the identifier of the first element, and the
later elements — whatever they are — never change the result. -/
theorem C10_first_default_segment (v : String) (r1 r2 : List String) :
    resolveDefaultVpcId (v :: r1) = some v ∧
    resolveDefaultVpcId (v :: r1) = resolveDefaultVpcId (v :: r2) :=
  ⟨rfl, rfl⟩

end Provision
